import Mathlib

/-!
Shallow embedding of the pdfmodel repository (a PDF question-answering
service) and proofs about its specification claims.

Python floats are modelled as rationals, Python dicts as insertion-ordered
association lists, Python lists as Lean lists, and raised exceptions as
Except / Option results.  External libraries (ChromaDB, sentence
transformers, PDF readers) are modelled through their observable results,
which enter the definitions as explicit parameters.
-/

namespace PdfModel

/-! ### Python string primitives -/

/-- Whitespace characters recognised by Python str.strip (ASCII subset). -/
def pyIsSpace (c : Char) : Bool :=
  c = ' ' || c = '\t' || c = '\n' || c = '\r' || c = '\x0b' || c = '\x0c'

/-- Python str.strip(): drop whitespace from both ends. -/
def pyStrip (s : String) : String :=
  ⟨((s.data.dropWhile pyIsSpace).reverse.dropWhile pyIsSpace).reverse⟩

/-- Python str.lower() (ASCII letters). -/
def pyLower (s : String) : String :=
  ⟨s.data.map Char.toLower⟩

/-- Does the needle occur as a leading block of the haystack? -/
def listStartsWith : List Char → List Char → Bool
  | _, [] => true
  | [], _ :: _ => false
  | h :: hs, n :: ns => h == n && listStartsWith hs ns

/-- Python substring test: needle in haystack (contiguous occurrence). -/
def strContainsSub (hay needle : List Char) : Bool :=
  match hay with
  | [] => listStartsWith [] needle
  | c :: t => listStartsWith (c :: t) needle || strContainsSub t needle

/-- Python list.remove(x): delete the first occurrence of x. -/
def removeFirst : List String → String → List String
  | [], _ => []
  | x :: xs, t => if x = t then xs else x :: removeFirst xs t

/-! ### C1: distance-to-similarity conversion (rag_service.answer_question)

Python: similarity = max(0.0, 1.0 - (distance / 2.0)) -/

def toSimilarity (d : ℚ) : ℚ := max 0 (1 - d / 2)

/-! ### C2: EmbeddingCache (embedding_service.EmbeddingCache)

self.cache is a Python dict (insertion-ordered map), self.access_order a
Python list.  dict deletion of a missing key raises KeyError, and
list.pop(0) on an empty list raises IndexError; both are modelled as
none. -/

/-- Python dict assignment: update in place when present, else append. -/
def dictSet {α : Type} (m : List (String × α)) (k : String) (v : α) :
    List (String × α) :=
  if m.any (fun p => p.1 == k) then
    m.map (fun p => if p.1 == k then (k, v) else p)
  else
    m ++ [(k, v)]

/-- Python dict lookup (d.get(k) / d[k] when known present). -/
def dictGet {α : Type} (m : List (String × α)) (k : String) : Option α :=
  (m.find? (fun p => p.1 == k)).map Prod.snd

/-- Python del d[k]: none models the KeyError on a missing key. -/
def dictDel {α : Type} (m : List (String × α)) (k : String) :
    Option (List (String × α)) :=
  if m.any (fun p => p.1 == k) then
    some (m.filter (fun p => ¬ (p.1 == k)))
  else
    none

structure Cache (α : Type) where
  cache : List (String × α)
  max_size : Nat
  access_order : List String
deriving Repr, DecidableEq

def Cache.empty (α : Type) (maxSize : Nat) : Cache α :=
  ⟨[], maxSize, []⟩

/-- EmbeddingCache.get: on a hit, move the key to the back of
access_order and return the value; on a miss return None. -/
def Cache.get {α : Type} (c : Cache α) (text : String) :
    Option α × Cache α :=
  match dictGet c.cache text with
  | some v =>
      (some v,
       { c with access_order := removeFirst c.access_order text ++ [text] })
  | none => (none, c)

/-- EmbeddingCache.put: when len(cache) >= max_size, pop the head of
access_order and delete that key, then store the value and append the key
to access_order.  none models an uncaught KeyError / IndexError. -/
def Cache.put {α : Type} (c : Cache α) (text : String) (embedding : α) :
    Option (Cache α) :=
  let evicted : Option (Cache α) :=
    if c.max_size ≤ c.cache.length then
      match c.access_order with
      | [] => none
      | oldest :: rest =>
          match dictDel c.cache oldest with
          | some m => some { c with cache := m, access_order := rest }
          | none => none
    else
      some c
  evicted.map (fun c1 =>
    { c1 with
        cache := dictSet c1.cache text embedding,
        access_order := c1.access_order ++ [text] })

/-- Cache operations, for describing traces. -/
inductive CacheOp (α : Type) where
  | putOp (text : String) (embedding : α)
  | getOp (text : String)
deriving Repr

/-- Run a sequence of cache operations (get results are discarded). -/
def runOps {α : Type} : Cache α → List (CacheOp α) → Option (Cache α)
  | c, [] => some c
  | c, CacheOp.putOp t v :: rest =>
      match c.put t v with
      | some c1 => runOps c1 rest
      | none => none
  | c, CacheOp.getOp t :: rest => runOps (c.get t).2 rest

/-! ### C3: experience extraction (rag_service._extract_experience_info)

Python: years = re.findall(r'\b(19|20)\d{2}\b', content).  Because the
pattern has a capturing group, findall returns the text of the GROUP
("19" or "20"), not the whole four-digit match. -/

/-- Python regex word character \w (ASCII subset). -/
def pyIsWordChar (c : Char) : Bool := c.isAlphanum || c = '_'

/-- A \b boundary holds before the match when at the start of the string
or after a non-word character. -/
def prevBoundary : Option Char → Bool
  | none => true
  | some c => ! pyIsWordChar c

/-- A \b boundary holds after the match at the end of the string or
before a non-word character. -/
def nextBoundary : List Char → Bool
  | [] => true
  | c :: _ => ! pyIsWordChar c

/-- re.findall(r'\b(19|20)\d{2}\d', text) scanning: left-to-right,
non-overlapping; each hit contributes the captured group "19" or "20".
The first argument carries the character before the current position. -/
def findYearGroups : Option Char → List Char → List String
  | prev, c1 :: c2 :: c3 :: c4 :: rest =>
      if prevBoundary prev
          && ((c1 == '1' && c2 == '9') || (c1 == '2' && c2 == '0'))
          && c3.isDigit && c4.isDigit && nextBoundary rest then
        String.mk [c1, c2] :: findYearGroups (some c4) rest
      else
        findYearGroups (some c1) (c2 :: c3 :: c4 :: rest)
  | _, _ => []

/-- Python string comparison: lexicographic on code points. -/
def charListLt : List Char → List Char → Bool
  | [], [] => false
  | [], _ :: _ => true
  | _ :: _, [] => false
  | a :: as, b :: bs =>
      if a.toNat < b.toNat then true
      else if b.toNat < a.toNat then false
      else charListLt as bs

def strLt (a b : String) : Bool := charListLt a.data b.data

/-- Python min over a nonempty list of strings (lexicographic). -/
def pyMinStr : List String → String
  | [] => ""
  | x :: xs => xs.foldl (fun acc s => if strLt s acc then s else acc) x

/-- Python max over a nonempty list of strings (lexicographic). -/
def pyMaxStr : List String → String
  | [] => ""
  | x :: xs => xs.foldl (fun acc s => if strLt acc s then s else acc) x

def job_keywords : List String :=
  ["developer", "engineer", "manager", "analyst", "consultant",
   "specialist", "coordinator", "director", "lead", "senior"]

/-- RAGService._extract_experience_info.  found_roles is duplicate-free
(one filter pass over the distinct keyword list), so joining it directly
matches joining set(found_roles) up to the unspecified set order. -/
def extract_experience_info (content _question : String) : String :=
  let years := findYearGroups none content.data
  let content_lower := pyLower content
  let found_roles :=
    job_keywords.filter (fun k => strContainsSub content_lower.data k.data)
  if !found_roles.isEmpty || !years.isEmpty then
    let info_parts :=
      (if !years.isEmpty then
        ["Experience spanning years " ++ pyMinStr years ++ "-" ++ pyMaxStr years]
       else []) ++
      (if !found_roles.isEmpty then
        ["Roles include: " ++ String.intercalate ", " found_roles]
       else [])
    "Work experience information: " ++ String.intercalate ". " info_parts ++
      ". Details: " ++ content.take 200 ++ "..."
  else
    "Regarding work experience: " ++ content.take 300 ++ "..."

/-! ### RAG answer pipeline (rag_service.answer_question and helpers)

A vector-store search result, as formatted by VectorStore.similarity_search
(the metadata fields that answer_question reads are inlined). -/

structure SearchResult where
  id : String
  content : String
  chunk_id : String
  filename : String
  document_id : String
  distance : ℚ
deriving Repr, DecidableEq

/-- A search result with the similarity attached by answer_question. -/
structure ScoredChunk where
  result : SearchResult
  similarity : ℚ
deriving Repr, DecidableEq

structure Source where
  chunk_id : String
  content : String
  similarity : ℚ
  filename : String
  document_id : String
deriving Repr, DecidableEq

structure AnswerResult where
  answer : String
  confidence : ℚ
  sources : List Source
  document_id : Option String
deriving Repr, DecidableEq

/-- The two category extractors built on regex searches
(_extract_names_info and _extract_contact_info) enter the model as
opaque string functions of (content, question): no claim depends on the
text they build. -/
structure Extractors where
  extract_names_info : String → String → String
  extract_contact_info : String → String → String

/-- Extractor pack used to instantiate theorems at concrete inputs. -/
def Extractors.plain : Extractors :=
  ⟨fun content _ => content, fun content _ => content⟩

/-- Python str.title() restricted to a single lowercase word. -/
def pyTitle (s : String) : String :=
  match s.data with
  | [] => ""
  | c :: t => ⟨c.toUpper :: t⟩

def tech_keywords : List String :=
  ["python", "java", "javascript", "react", "node", "sql", "aws",
   "docker", "kubernetes", "git", "linux", "mongodb", "postgresql",
   "html", "css", "angular", "vue", "django", "flask", "spring"]

/-- RAGService._extract_skills_info. -/
def extract_skills_info (content _question : String) : String :=
  let content_lower := pyLower content
  let found_skills :=
    (tech_keywords.filter (fun s => strContainsSub content_lower.data s.data)).map
      pyTitle
  if !found_skills.isEmpty then
    "Technical skills mentioned: " ++ String.intercalate ", " found_skills ++
      ". Additional details: " ++ content.take 200 ++ "..."
  else
    "Skills and technologies: " ++ content.take 300 ++ "..."

def edu_keywords : List String :=
  ["university", "college", "degree", "bachelor", "master", "phd",
   "graduation", "graduated", "school", "education"]

/-- RAGService._extract_education_info. -/
def extract_education_info (content _question : String) : String :=
  let content_lower := pyLower content
  if edu_keywords.any (fun k => strContainsSub content_lower.data k.data) then
    "Educational background: " ++ content.take 300 ++ "..."
  else
    "Regarding education: " ++ content.take 300 ++ "..."

/-- Stable insertion into a descending-by-similarity list: the new
element goes after every element with an equal or larger key. -/
def insertBySimDesc (x : ScoredChunk) : List ScoredChunk → List ScoredChunk
  | [] => [x]
  | y :: ys =>
      if y.similarity < x.similarity then x :: y :: ys
      else y :: insertBySimDesc x ys

/-- Python sorted(chunks, key=similarity, reverse=True): stable,
descending. -/
def sortBySimDesc (l : List ScoredChunk) : List ScoredChunk :=
  l.foldl (fun acc x => insertBySimDesc x acc) []

inductive Category where
  | nameCat
  | experienceCat
  | skillCat
  | educationCat
  | contactCat
  | generalCat
deriving Repr, DecidableEq

/-- Is any keyword a substring of the (already lowercased) question? -/
def anyKw (ql : String) (kws : List String) : Bool :=
  kws.any (fun k => strContainsSub ql.data k.data)

/-- The if/elif keyword dispatch of RAGService._simple_answer_generation,
as a category. -/
def classifyQuestion (question : String) : Category :=
  let question_lower := pyLower question
  if anyKw question_lower ["name", "who"] then Category.nameCat
  else if anyKw question_lower ["experience", "work", "job", "position"] then
    Category.experienceCat
  else if anyKw question_lower ["skill", "technology", "technical"] then
    Category.skillCat
  else if anyKw question_lower ["education", "degree", "university", "college"] then
    Category.educationCat
  else if anyKw question_lower ["contact", "email", "phone", "address"] then
    Category.contactCat
  else Category.generalCat

def no_info_message : String :=
  "I couldn't find any relevant information to answer your question."

def low_relevance_message : String :=
  "I found some related content, but it doesn't seem relevant enough to answer your question confidently."

/-- RAGService._simple_answer_generation (the context argument is unused
in the source as well; combined content is rebuilt from the chunks). -/
def simple_answer_generation (ext : Extractors) (question _context : String)
    (chunks : List ScoredChunk) : String :=
  if chunks.isEmpty then no_info_message
  else
    let top_chunks := (sortBySimDesc chunks).take 3
    let combined_content :=
      String.intercalate " " (top_chunks.map (fun c => c.result.content))
    let question_lower := pyLower question
    match classifyQuestion question with
    | Category.nameCat => ext.extract_names_info combined_content question
    | Category.experienceCat => extract_experience_info combined_content question
    | Category.skillCat => extract_skills_info combined_content question
    | Category.educationCat => extract_education_info combined_content question
    | Category.contactCat => ext.extract_contact_info combined_content question
    | Category.generalCat =>
        match top_chunks with
        | [] => no_info_message
        | best :: _ =>
            let best_content := best.result.content
            if strContainsSub question_lower.data "what".data then
              "According to the document: " ++ best_content
            else if strContainsSub question_lower.data "how".data then
              "The document explains: " ++ best_content
            else if strContainsSub question_lower.data "why".data then
              "The document indicates: " ++ best_content
            else
              "Based on the document: " ++ best_content

/-- RAGService._generate_answer: the answer text plus a confidence of
min(average similarity * 1.2, 1.0). -/
def generate_answer (ext : Extractors) (question : String)
    (relevant_chunks : List ScoredChunk) : String × ℚ :=
  let context :=
    String.intercalate "\n\n" (relevant_chunks.map (fun c => c.result.content))
  let answer := simple_answer_generation ext question context relevant_chunks
  let similarities := relevant_chunks.map ScoredChunk.similarity
  let avg_similarity :=
    if !similarities.isEmpty then similarities.sum / (similarities.length : ℚ)
    else 0
  let confidence := min (avg_similarity * (6 / 5)) 1
  (answer, confidence)

/-- The sources entry answer_question builds from a scored chunk. -/
def mkSource (chunk : ScoredChunk) : Source :=
  { chunk_id := chunk.result.chunk_id
    content :=
      if chunk.result.content.length > 200 then
        chunk.result.content.take 200 ++ "..."
      else chunk.result.content
    similarity := chunk.similarity
    filename := chunk.result.filename
    document_id := chunk.result.document_id }

/-- The fixed response of the (unreachable) low-relevance branch. -/
def low_relevance_result (document_id : Option String) : AnswerResult :=
  ⟨low_relevance_message, 1 / 5, [], document_id⟩

/-- RAGService.answer_question.  The vector-store call is modelled by the
search_results parameter; similarity_threshold is accepted and, as in the
source, never read. -/
def answer_question (ext : Extractors) (question : String)
    (document_id : Option String) (search_results : List SearchResult)
    (_similarity_threshold : ℚ) : Except String AnswerResult :=
  if pyStrip question = "" then Except.error "Empty question provided"
  else if search_results.isEmpty then
    Except.ok ⟨no_info_message, 0, [], document_id⟩
  else
    let relevant_chunks :=
      search_results.map (fun r => ScoredChunk.mk r (toSimilarity r.distance))
    if relevant_chunks.isEmpty then
      Except.ok (low_relevance_result document_id)
    else
      let generated := generate_answer ext question relevant_chunks
      Except.ok
        ⟨generated.1, generated.2, relevant_chunks.map mkSource, document_id⟩

/-- Observer: the sources of a non-raising answer. -/
def sourcesOf : Except String AnswerResult → List Source
  | Except.ok a => a.sources
  | Except.error _ => []

/-- A concrete search result used to instantiate theorems. -/
def sampleResult : SearchResult :=
  ⟨"id1", "hello", "0", "f.pdf", "doc1", 1⟩

/-! ### C9: chunk creation (pdf_processor.create_chunks) -/

/-- The empty-input failure of create_chunks
(ValueError("Empty text provided for chunking")). -/
inductive ChunkError where
  | emptyInput
deriving Repr, DecidableEq

structure ChunkDoc where
  page_content : String
  chunk_id : Nat
  chunk_size : Nat
  total_chunks : Nat
deriving Repr, DecidableEq

/-- PDFProcessor.create_chunks.  The LangChain text splitter is external
code and enters as the split_text parameter. -/
def create_chunks (split_text : String → List String) (text : String) :
    Except ChunkError (List ChunkDoc) :=
  if pyStrip text = "" then Except.error ChunkError.emptyInput
  else
    let chunks := split_text text
    Except.ok
      ((chunks.enum.filter (fun p => pyStrip p.2 != "")).map
        (fun p => ⟨pyStrip p.2, p.1, p.2.length, chunks.length⟩))

/-! ### C7: ingestion pipeline (rag_service.process_and_store_pdf) -/

structure PdfInfo where
  page_count : Nat
  file_size : Nat
deriving Repr, DecidableEq

/-- A processed chunk document (LangChain Document). -/
structure PDoc where
  page_content : String
deriving Repr, DecidableEq

/-- Observable outcomes of the external steps of the ingestion pipeline:
PDF validation, get_pdf_info (which never raises), process_pdf,
encode_documents, and the vector-store add_documents. -/
structure PipelineEnv where
  validate_pdf : Bool
  pdf_info : PdfInfo
  process_pdf : Except String (List PDoc)
  encode_documents : Except String (List (List ℚ))
  add_documents : Except String Bool

/-- The documents-metadata record written by process_and_store_pdf;
fields absent from one of the two branches are Options. -/
structure DocMeta where
  document_id : String
  filename : String
  file_path : String
  upload_date : Nat
  chunk_count : Option Nat
  file_size : Option Nat
  page_count : Option Nat
  status : String
  error_message : Option String
deriving Repr, DecidableEq

structure ProcessResult where
  document_id : String
  filename : String
  chunk_count : Nat
  status : String
  message : String
deriving Repr, DecidableEq

/-- The try-body of process_and_store_pdf: first raised error wins. -/
def runPipelineBody (env : PipelineEnv) : Except String (List PDoc) :=
  if ¬ env.validate_pdf then Except.error "Invalid PDF file"
  else
    match env.process_pdf with
    | Except.error e => Except.error e
    | Except.ok documents =>
        if documents.isEmpty then
          Except.error "No text could be extracted from PDF"
        else
          match env.encode_documents with
          | Except.error e => Except.error e
          | Except.ok _embeddings =>
              match env.add_documents with
              | Except.error e => Except.error e
              | Except.ok success =>
                  if success then Except.ok documents
                  else Except.error "Failed to store document in vector database"

/-- RAGService.process_and_store_pdf: on success record a completed
metadata entry and return the result; on any failure record a failed
entry carrying str(e) and re-raise. -/
def process_and_store_pdf (env : PipelineEnv)
    (file_path filename document_id : String) (now : Nat)
    (metadata : List (String × DocMeta)) :
    Except String ProcessResult × List (String × DocMeta) :=
  match runPipelineBody env with
  | Except.ok documents =>
      let m : DocMeta :=
        ⟨document_id, filename, file_path, now, some documents.length,
         some env.pdf_info.file_size, some env.pdf_info.page_count,
         "completed", none⟩
      (Except.ok
        ⟨document_id, filename, documents.length, "completed",
         "PDF processed and stored successfully"⟩,
       dictSet metadata document_id m)
  | Except.error e =>
      let m : DocMeta :=
        ⟨document_id, filename, file_path, now, none, none, none,
         "failed", some e⟩
      (Except.error e, dictSet metadata document_id m)

/-! ### C8: vector store (database.vector_store.VectorStore)

The ChromaDB collection is modelled as the list of its records in
insertion order. -/

structure VSRecord where
  id : String
  content : String
  document_id : String
  filename : String
  file_size : Nat
  text_length : Nat
deriving Repr, DecidableEq

/-- VectorStore.get_documents_by_id: collection.get with a document_id
filter (the source then rewraps each record as an id/content/metadata
dict). -/
def get_documents_by_id (coll : List VSRecord) (document_id : String) :
    List VSRecord :=
  coll.filter (fun r => r.document_id == document_id)

/-- VectorStore.delete_document: fetch the chunk ids of the document,
then delete those ids; False when the document has no chunks. -/
def delete_document (coll : List VSRecord) (document_id : String) :
    Bool × List VSRecord :=
  let ids := (coll.filter (fun r => r.document_id == document_id)).map VSRecord.id
  if !ids.isEmpty then (true, coll.filter (fun r => !(ids.contains r.id)))
  else (false, coll)

structure DocEntry where
  document_id : String
  filename : String
  chunk_count : Nat
  file_size : Nat
  text_length : Nat
deriving Repr, DecidableEq

/-- documents[doc_id]["chunk_count"] += 1 -/
def bumpChunkCount (entries : List DocEntry) (doc_id : String) :
    List DocEntry :=
  entries.map (fun e =>
    if e.document_id == doc_id then { e with chunk_count := e.chunk_count + 1 }
    else e)

/-- The metadata loop of VectorStore.list_documents over an
insertion-ordered dict of entries; a falsy (empty) document_id is
skipped. -/
def list_documents_aux : List VSRecord → List DocEntry → List DocEntry
  | [], acc => acc
  | r :: rest, acc =>
      let acc1 :=
        if r.document_id != "" &&
            acc.all (fun e => e.document_id != r.document_id) then
          acc ++ [⟨r.document_id, r.filename, 0, r.file_size, r.text_length⟩]
        else acc
      let acc2 :=
        if r.document_id != "" then bumpChunkCount acc1 r.document_id else acc1
      list_documents_aux rest acc2

/-- VectorStore.list_documents. -/
def list_documents (coll : List VSRecord) : List DocEntry :=
  list_documents_aux coll []

/-! ## Shared lemmas -/

theorem pyStrip_data (s : String) :
    (pyStrip s).data
      = ((s.data.dropWhile pyIsSpace).reverse.dropWhile pyIsSpace).reverse :=
  rfl

/-- text.strip() is empty exactly when every character is whitespace (in
particular for the empty text). -/
theorem pyStrip_eq_empty_iff (s : String) :
    pyStrip s = "" ↔ s.data.all pyIsSpace = true := by
  rw [String.ext_iff, pyStrip_data]
  have hnil : ("".data : List Char) = [] := rfl
  rw [hnil]
  simp only [List.reverse_eq_nil_iff, List.dropWhile_eq_nil_iff,
    List.mem_reverse, List.all_eq_true]
  constructor
  · intro h x hx
    have hsplit := List.takeWhile_append_dropWhile (p := pyIsSpace) (l := s.data)
    rw [← hsplit] at hx
    rcases List.mem_append.mp hx with h1 | h2
    · exact List.mem_takeWhile_imp h1
    · exact h x h2
  · intro h x hx
    exact h x (List.dropWhile_subset pyIsSpace hx)

/-! ## C1 -/

/-- C1, counterexample: the conversion max(0, 1 - d/2) only clamps from
below, so the distance d = -2 is converted to similarity 2, outside
[0, 1]; the claim's "for every real d the resulting similarity lies in
[0,1]" is false. -/
theorem C1_counterexample :
    toSimilarity (-2) = 2 ∧ ¬ toSimilarity (-2) ≤ 1 := by
  constructor <;> norm_num [toSimilarity]

/-- C1, amended: every distance d returned by the search is converted to
similarity max(0, 1 - d/2); similarity is 1 at d = 0 and 0 at d = 2, and
for every d ≥ 0 the similarity lies in [0, 1]. -/
theorem C1_similarity_conversion :
    toSimilarity 0 = 1 ∧ toSimilarity 2 = 0 ∧
    (∀ d : ℚ, 0 ≤ d → 0 ≤ toSimilarity d ∧ toSimilarity d ≤ 1) ∧
    (∀ (ext : Extractors) (question : String) (document_id : Option String)
        (search_results : List SearchResult) (t : ℚ),
      pyStrip question ≠ "" →
        (sourcesOf (answer_question ext question document_id search_results t)).map
            Source.similarity
          = search_results.map (fun r => toSimilarity r.distance)) := by
  refine ⟨by norm_num [toSimilarity], by norm_num [toSimilarity], ?_, ?_⟩
  · intro d hd
    refine ⟨le_max_left 0 _, max_le (by norm_num) ?_⟩
    have : 0 ≤ d / 2 := by positivity
    linarith
  · intro ext question document_id search_results t hq
    unfold answer_question
    rw [if_neg hq]
    by_cases hres : search_results.isEmpty
    · rw [if_pos hres]
      rw [List.isEmpty_iff.mp hres]
      rfl
    · rw [if_neg hres]
      have hres' : search_results ≠ [] := by
        simpa [List.isEmpty_iff] using hres
      have hmap : (search_results.map
          (fun r => ScoredChunk.mk r (toSimilarity r.distance))).isEmpty = false := by
        simp [List.isEmpty_eq_false, hres']
      simp only [hmap, if_neg, Bool.false_eq_true, if_false, sourcesOf,
        List.map_map]
      rfl

/-- C1, witness for the amended theorem's hypotheses. -/
theorem C1_witness :
    ((0 : ℚ) ≤ 1 ∧ (0 ≤ toSimilarity 1 ∧ toSimilarity 1 ≤ 1)) ∧
    (pyStrip "What is this" ≠ "" ∧
      (sourcesOf (answer_question Extractors.plain "What is this" none [] 0)).map
          Source.similarity
        = ([] : List SearchResult).map (fun r => toSimilarity r.distance)) := by
  have h := C1_similarity_conversion
  have h01 : (0 : ℚ) ≤ 1 := by norm_num
  have hq : pyStrip "What is this" ≠ "" := by decide
  exact ⟨⟨h01, h.2.2.1 1 h01⟩,
    ⟨hq, h.2.2.2 Extractors.plain "What is this" none [] 0 hq⟩⟩

/-! ## C5 -/

/-- C5: whenever the execution reaches the vector-store search (the
question is not whitespace-only) and the search returns no results,
answer_question returns the fixed no-information answer with confidence
0.0 and an empty sources list, raising no error. -/
theorem C5_empty_search_results (ext : Extractors) (question : String)
    (document_id : Option String) (t : ℚ) (h : pyStrip question ≠ "") :
    answer_question ext question document_id [] t
      = Except.ok ⟨no_info_message, 0, [], document_id⟩ := by
  unfold answer_question
  rw [if_neg h]
  rfl

/-- C5, witness. -/
theorem C5_witness :
    pyStrip "What is the name?" ≠ "" ∧
    answer_question Extractors.plain "What is the name?" none [] 0
      = Except.ok ⟨no_info_message, 0, [], none⟩ := by
  have hq : pyStrip "What is the name?" ≠ "" := by decide
  exact ⟨hq, C5_empty_search_results Extractors.plain "What is the name?" none 0 hq⟩

/-! ## C9 -/

/-- C9: create_chunks fails with the empty-input error exactly when the
input text is empty or consists only of whitespace, for every behaviour
of the text splitter. -/
theorem C9_empty_input_error (split_text : String → List String) (text : String) :
    create_chunks split_text text = Except.error ChunkError.emptyInput
      ↔ text.data.all pyIsSpace = true := by
  unfold create_chunks
  by_cases h : pyStrip text = ""
  · rw [if_pos h]
    simp [(pyStrip_eq_empty_iff text).mp h]
  · rw [if_neg h]
    rw [← pyStrip_eq_empty_iff text]
    simp [h]

/-! ## C2 -/

set_option maxRecDepth 200000

/-- C2: code-bug evaluation.  With capacity 2, after put "a", put "a",
put "b", get "a" the cache holds a and b and access_order is
["a", "b", "a"]: re-putting "a" left a stale occurrence at the front.
The next put at capacity then pops that stale front entry and evicts
"a" - the most recently used key - while the least-recently-used "b"
survives, contradicting LRU eviction. -/
theorem C2_put_evicts_most_recently_used :
    (runOps (Cache.empty Nat 2)
        [CacheOp.putOp "a" 1, CacheOp.putOp "a" 2, CacheOp.putOp "b" 3,
         CacheOp.getOp "a"]).map
        (fun c => (c.cache.map Prod.fst, c.access_order))
      = some (["a", "b"], ["a", "b", "a"]) ∧
    (runOps (Cache.empty Nat 2)
        [CacheOp.putOp "a" 1, CacheOp.putOp "a" 2, CacheOp.putOp "b" 3,
         CacheOp.getOp "a", CacheOp.putOp "c" 4]).map
        (fun c => c.cache.map Prod.fst)
      = some ["b", "c"] := by
  exact ⟨rfl, rfl⟩

/-! ## C3 -/

/-- C3: code-bug evaluation.  re.findall on a pattern with a capturing
group returns the group captures, so the "years" list holds "19"/"20"
century digits, not four-digit years: on text containing the years 2015
and 2020 the answer reports the range "20-20" instead of "2015-2020". -/
theorem C3_year_range_uses_group_captures :
    findYearGroups none ("Worked from 2015 to 2020 as developer").data
      = ["20", "20"] ∧
    extract_experience_info "Worked from 2015 to 2020 as developer"
        "What is their experience?"
      = "Work experience information: Experience spanning years 20-20. Roles include: developer. Details: Worked from 2015 to 2020 as developer..." := by
  exact ⟨rfl, rfl⟩

/-! ## C4 -/

/-- C4: for every non-empty chunk list, the confidence produced by
answer generation is min(average similarity * 1.2, 1.0), and it is
unchanged under replacing the regex-based extractors and the question -
the category extractor's output never feeds into the confidence. -/
theorem C4_confidence_formula (ext ext2 : Extractors)
    (question question2 : String) (chunks : List ScoredChunk)
    (h : chunks ≠ []) :
    (generate_answer ext question chunks).2
        = min (((chunks.map ScoredChunk.similarity).sum / (chunks.length : ℚ))
            * (6 / 5)) 1
      ∧ (generate_answer ext question chunks).2
        = (generate_answer ext2 question2 chunks).2 := by
  cases chunks with
  | nil => exact absurd rfl h
  | cons c cs =>
      constructor
      · simp [generate_answer]
      · rfl

/-- C4, witness. -/
theorem C4_witness :
    (([⟨sampleResult, 1 / 2⟩] : List ScoredChunk) ≠ []) ∧
    (generate_answer Extractors.plain "q" [⟨sampleResult, 1 / 2⟩]).2
        = min (((([⟨sampleResult, 1 / 2⟩] : List ScoredChunk).map
              ScoredChunk.similarity).sum
            / ((([⟨sampleResult, 1 / 2⟩] : List ScoredChunk).length : ℚ)))
            * (6 / 5)) 1 := by
  have hne : ([⟨sampleResult, 1 / 2⟩] : List ScoredChunk) ≠ [] := by simp
  exact ⟨hne,
    (C4_confidence_formula Extractors.plain Extractors.plain "q" "q"
      [⟨sampleResult, 1 / 2⟩] hne).1⟩

/-! ## C6 -/

/-- The ordered category/keyword table, written from the spec's words. -/
def category_keyword_order : List (Category × List String) :=
  [(Category.nameCat, ["name", "who"]),
   (Category.experienceCat, ["experience", "work", "job", "position"]),
   (Category.skillCat, ["skill", "technology", "technical"]),
   (Category.educationCat, ["education", "degree", "university", "college"]),
   (Category.contactCat, ["contact", "email", "phone", "address"])]

/-- Modelled from the spec: the first category in the fixed order with
any keyword occurring (case-insensitively) in the question wins; when no
keyword of any category occurs, the category is general. -/
def classifySpec (question : String) : Category :=
  match category_keyword_order.find?
      (fun p => anyKw (pyLower question) p.2) with
  | some p => p.1
  | none => Category.generalCat

/-- C6: the if/elif keyword dispatch of the answer generator picks
exactly the first category, in the fixed order, with any keyword present
in the lowercased question, regardless of later matches. -/
theorem C6_first_match_category :
    ∀ question : String, classifyQuestion question = classifySpec question := by
  intro question
  unfold classifyQuestion classifySpec category_keyword_order
  cases h1 : anyKw (pyLower question) ["name", "who"] <;>
  cases h2 : anyKw (pyLower question) ["experience", "work", "job", "position"] <;>
  cases h3 : anyKw (pyLower question) ["skill", "technology", "technical"] <;>
  cases h4 : anyKw (pyLower question) ["education", "degree", "university", "college"] <;>
  cases h5 : anyKw (pyLower question) ["contact", "email", "phone", "address"] <;>
  simp [List.find?, h1, h2, h3, h4, h5]

/-! ## C7 -/

/-- In-place dict update: the first (and only relevant) matching entry
becomes (k, v), and find? retrieves it. -/
theorem find?_map_update {α : Type} (m : List (String × α)) (k : String) (v : α)
    (hany : (m.any (fun q => q.1 == k)) = true) :
    (m.map (fun p => if p.1 == k then (k, v) else p)).find? (fun p => p.1 == k)
      = some (k, v) := by
  induction m with
  | nil => simp at hany
  | cons p rest ih =>
      by_cases hp : p.1 = k
      · simp [List.find?_cons, hp]
      · have hp' : (p.1 == k) = false := by simp [hp]
        have hrest : (rest.any (fun q => q.1 == k)) = true := by
          rcases (List.any_eq_true.mp hany) with ⟨x, hx, hxk⟩
          rcases List.mem_cons.mp hx with rfl | hx2
          · exact absurd (by simpa using hxk) hp
          · exact List.any_eq_true.mpr ⟨x, hx2, hxk⟩
        have hif : (if (p.1 == k) = true then (k, v) else p) = p :=
          if_neg (by simp [hp])
        rw [List.map_cons, hif, List.find?_cons, hp']
        exact ih hrest

/-- Updating a key in a Python dict and reading it back yields the
stored value. -/
theorem dictGet_dictSet {α : Type} (m : List (String × α)) (k : String) (v : α) :
    dictGet (dictSet m k v) k = some v := by
  by_cases hany : (m.any (fun q => q.1 == k)) = true
  · rw [dictSet, if_pos hany, dictGet, find?_map_update m k v hany]
    rfl
  · have hfind : m.find? (fun q => q.1 == k) = none := by
      rw [List.find?_eq_none]
      intro x hx hxk
      exact hany (List.any_eq_true.mpr ⟨x, hx, hxk⟩)
    rw [dictSet, if_neg hany, dictGet, List.find?_append, hfind]
    simp [List.find?_cons]

/-- C7: whenever the ingestion pipeline ends in an error, the metadata
record of the document afterwards has status "failed" and a non-null
error_message equal to the causing error's message. -/
theorem C7_failure_records_failed_metadata (env : PipelineEnv)
    (file_path filename document_id : String) (now : Nat)
    (metadata : List (String × DocMeta)) (e : String)
    (h : (process_and_store_pdf env file_path filename document_id now
        metadata).1 = Except.error e) :
    ∃ m : DocMeta,
      dictGet (process_and_store_pdf env file_path filename document_id now
          metadata).2 document_id = some m
        ∧ m.status = "failed" ∧ m.error_message = some e := by
  revert h
  unfold process_and_store_pdf
  cases hrun : runPipelineBody env with
  | ok docs =>
      intro h
      simp at h
  | error e2 =>
      intro h
      obtain rfl : e2 = e := by simpa using h
      exact ⟨_, dictGet_dictSet metadata document_id _, rfl, rfl⟩

/-- Pipeline environment whose PDF validation fails. -/
def envInvalid : PipelineEnv :=
  ⟨false, ⟨0, 0⟩, Except.ok [], Except.ok [], Except.ok true⟩

/-- C7, witness: an invalid PDF fails the pipeline and records a failed
metadata entry carrying the error message. -/
theorem C7_witness :
    (process_and_store_pdf envInvalid "f.pdf" "f.pdf" "d1" 0 []).1
        = Except.error "Invalid PDF file"
      ∧ ∃ m : DocMeta,
          dictGet (process_and_store_pdf envInvalid "f.pdf" "f.pdf" "d1" 0 []).2
              "d1" = some m
            ∧ m.status = "failed" ∧ m.error_message = some "Invalid PDF file" := by
  have h1 : (process_and_store_pdf envInvalid "f.pdf" "f.pdf" "d1" 0 []).1
      = Except.error "Invalid PDF file" := rfl
  exact ⟨h1,
    C7_failure_records_failed_metadata envInvalid "f.pdf" "f.pdf" "d1" 0 [] _ h1⟩

/-! ## C8 -/

/-- Every record surviving delete_document belongs to another document. -/
theorem mem_delete_document (coll : List VSRecord) (d : String) (r : VSRecord)
    (hr : r ∈ (delete_document coll d).2) : (r.document_id == d) = false := by
  by_contra hcontra
  have hpred : (r.document_id == d) = true := by
    cases hb : (r.document_id == d)
    · exact absurd hb hcontra
    · rfl
  unfold delete_document at hr
  rw [apply_ite Prod.snd] at hr
  by_cases hne :
      (((coll.filter (fun r2 => r2.document_id == d)).map VSRecord.id).isEmpty) = true
  · rw [if_neg (by simp [hne])] at hr
    have hmapnil := List.isEmpty_iff.mp hne
    have hfilnil := List.map_eq_nil_iff.mp hmapnil
    exact absurd hpred (by simpa using List.filter_eq_nil_iff.mp hfilnil r hr)
  · rw [if_pos (by simp [Bool.not_eq_true] at hne; simp [hne])] at hr
    have hr' := List.mem_filter.mp hr
    have hmem : r.id ∈ (coll.filter (fun r2 => r2.document_id == d)).map VSRecord.id :=
      List.mem_map.mpr ⟨r, List.mem_filter.mpr ⟨hr'.1, hpred⟩, rfl⟩
    have hcont :
        ((coll.filter (fun r2 => r2.document_id == d)).map VSRecord.id).contains r.id
          = true :=
      List.elem_eq_true_of_mem hmem
    have := hr'.2
    rw [hcont] at this
    simp at this

/-- bumpChunkCount never changes any entry's document_id. -/
theorem mem_bumpChunkCount (entries : List DocEntry) (did : String)
    (e : DocEntry) (he : e ∈ bumpChunkCount entries did) :
    ∃ e0 ∈ entries, e.document_id = e0.document_id := by
  unfold bumpChunkCount at he
  obtain ⟨e0, he0, heq⟩ := List.mem_map.mp he
  refine ⟨e0, he0, ?_⟩
  rw [← heq]
  by_cases hb : (e0.document_id == did) = true
  · simp [hb]
  · simp [hb]

/-- Every entry produced by the list_documents loop carries the
document_id of an accumulator entry or of a scanned record. -/
theorem list_documents_aux_all (d : String) :
    ∀ (l : List VSRecord) (acc : List DocEntry),
      (∀ e ∈ acc, (e.document_id != d) = true) →
      (∀ r ∈ l, (r.document_id != d) = true) →
      ∀ e ∈ list_documents_aux l acc, (e.document_id != d) = true := by
  intro l
  induction l with
  | nil =>
      intro acc hacc _ e he
      rw [list_documents_aux] at he
      exact hacc e he
  | cons r rest ih =>
      intro acc hacc hl e he
      rw [list_documents_aux] at he
      refine ih _ ?_ (fun r2 hr2 => hl r2 (List.mem_cons_of_mem r hr2)) e he
      intro e2 he2
      have hr : (r.document_id != d) = true := hl r (List.mem_cons_self r rest)
      have hacc1 : ∀ e3 ∈ (if (r.document_id != "" &&
          acc.all (fun e4 => e4.document_id != r.document_id)) = true then
            acc ++ [⟨r.document_id, r.filename, 0, r.file_size, r.text_length⟩]
          else acc), (e3.document_id != d) = true := by
        intro e3 he3
        by_cases hcond : (r.document_id != "" &&
            acc.all (fun e4 => e4.document_id != r.document_id)) = true
        · rw [if_pos hcond] at he3
          rcases List.mem_append.mp he3 with h1 | h2
          · exact hacc e3 h1
          · rw [List.mem_singleton.mp h2]
            exact hr
        · rw [if_neg hcond] at he3
          exact hacc e3 he3
      by_cases hcond2 : (r.document_id != "") = true
      · rw [if_pos hcond2] at he2
        obtain ⟨e0, he0, heq⟩ := mem_bumpChunkCount _ _ _ he2
        rw [heq]
        exact hacc1 e0 he0
      · rw [if_neg hcond2] at he2
        exact hacc1 e2 he2

/-- C8: after delete_document, fetching records filtered by the deleted
document_id yields the empty list, and the document enumeration no
longer contains an entry for that document_id. -/
theorem C8_delete_document_removes_all (coll : List VSRecord) (d : String) :
    get_documents_by_id (delete_document coll d).2 d = [] ∧
    (list_documents (delete_document coll d).2).all
      (fun e => e.document_id != d) = true := by
  constructor
  · unfold get_documents_by_id
    rw [List.filter_eq_nil_iff]
    intro r hr
    simp [mem_delete_document coll d r hr]
  · rw [List.all_eq_true]
    intro e he
    refine list_documents_aux_all d (delete_document coll d).2 [] ?_ ?_ e he
    · intro e2 he2
      exact absurd he2 (List.not_mem_nil e2)
    · intro r hr
      have hid := mem_delete_document coll d r hr
      simp [bne, hid]

/-! ## C10 -/

/-- C10: answer_question's result does not depend on the
similarity_threshold argument; the low-relevance response with
confidence 0.2 is never returned; and when the execution reaches the
search, every retrieved chunk appears among the sources (none is
excluded by the threshold). -/
theorem C10_threshold_never_filters (ext : Extractors) (question : String)
    (document_id : Option String) (search_results : List SearchResult)
    (t1 t2 : ℚ) :
    answer_question ext question document_id search_results t1
        = answer_question ext question document_id search_results t2
      ∧ answer_question ext question document_id search_results t1
        ≠ Except.ok (low_relevance_result document_id)
      ∧ (pyStrip question ≠ "" →
          ∃ a, answer_question ext question document_id search_results t1
              = Except.ok a ∧ a.sources.length = search_results.length) := by
  refine ⟨rfl, ?_, ?_⟩
  · unfold answer_question
    by_cases hq : pyStrip question = ""
    · simp [hq]
    · rw [if_neg hq]
      by_cases hres : search_results.isEmpty
      · rw [if_pos hres]
        intro hcontra
        simp only [low_relevance_result, Except.ok.injEq,
          AnswerResult.mk.injEq] at hcontra
        exact absurd hcontra.2.1 (by norm_num)
      · rw [if_neg hres]
        have hres' : search_results ≠ [] := by
          simpa [List.isEmpty_iff] using hres
        have hmap : (search_results.map
            (fun r => ScoredChunk.mk r (toSimilarity r.distance))).isEmpty
              = false := by
          simp [List.isEmpty_eq_false, hres']
        simp only [hmap, Bool.false_eq_true, if_false]
        intro hcontra
        simp only [low_relevance_result, Except.ok.injEq,
          AnswerResult.mk.injEq] at hcontra
        have hsrc := hcontra.2.2.1
        rw [List.map_map] at hsrc
        exact hres' (List.map_eq_nil_iff.mp hsrc)
  · intro hq
    unfold answer_question
    rw [if_neg hq]
    by_cases hres : search_results.isEmpty
    · rw [if_pos hres]
      refine ⟨_, rfl, ?_⟩
      simp [List.isEmpty_iff.mp hres]
    · rw [if_neg hres]
      have hres' : search_results ≠ [] := by
        simpa [List.isEmpty_iff] using hres
      have hmap : (search_results.map
          (fun r => ScoredChunk.mk r (toSimilarity r.distance))).isEmpty
            = false := by
        simp [List.isEmpty_eq_false, hres']
      simp only [hmap, Bool.false_eq_true, if_false]
      exact ⟨_, rfl, by simp⟩

/-- C10, witness. -/
theorem C10_witness :
    (answer_question Extractors.plain "zzz" none [] 0
        = answer_question Extractors.plain "zzz" none [] 1)
      ∧ pyStrip "zzz" ≠ ""
      ∧ (∃ a, answer_question Extractors.plain "zzz" none [] 0 = Except.ok a
          ∧ a.sources.length = ([] : List SearchResult).length) := by
  have h := C10_threshold_never_filters Extractors.plain "zzz" none [] 0 1
  have hq : pyStrip "zzz" ≠ "" := by decide
  exact ⟨h.1, hq, h.2.2 hq⟩

end PdfModel
